import Mathlib

/-!
Shallow embedding of the Pega When-Rule compiler from `pega_agent/models.py`
and the `create_when_rule` tool from `pega_agent/agent.py`, together with
theorems settling the frozen claims about the natural-language specification.

Conventions of the embedding:
* Python `Optional[str]` fields become `Option String`.
* Python truthiness of an `Optional[str]` (`None` and `""` are falsy) is
  modelled by `pyTruthyOpt`; `x or ""` by `pyOrEmpty`.
* Python `str.isdigit` is modelled for ASCII strings (`pyIsdigit`): non-empty
  and all characters decimal digits.
* Python f-string interpolation of `None` renders the text "None" (`pyStr`).
* JSON values produced by `json.loads` are modelled by `PyVal`; the parse
  itself is standard-library code, so `create_when_rule` receives the parse
  outcome (`Except String PyVal`) as input.
* Uncaught Python exceptions are modelled by `Except PyExc`.
-/

namespace PegaAgent

/-- Embeds the `Comparator` enum of `models.py`. -/
inductive Comparator
  | EQUALS
  | NOT_EQUALS
  | GREATER_THAN
  | GREATER_THAN_OR_EQUAL
  | LESS_THAN
  | LESS_THAN_OR_EQUAL
  | IS_TRUE
  | IS_FALSE
  | IS_BLANK
  | IS_NOT_BLANK
  | CONTAINS
  | STARTS_WITH
  | ENDS_WITH
  | IS_IN
  | IS_NOT_IN
deriving DecidableEq, Repr

/-- The `.value` string of each `Comparator` member. -/
def Comparator.value : Comparator → String
  | .EQUALS => "is equal to"
  | .NOT_EQUALS => "is not equal to"
  | .GREATER_THAN => "is greater than"
  | .GREATER_THAN_OR_EQUAL => "is greater than or equal to"
  | .LESS_THAN => "is less than"
  | .LESS_THAN_OR_EQUAL => "is less than or equal to"
  | .IS_TRUE => "is true"
  | .IS_FALSE => "is false"
  | .IS_BLANK => "is blank"
  | .IS_NOT_BLANK => "is not blank"
  | .CONTAINS => "contains"
  | .STARTS_WITH => "starts with"
  | .ENDS_WITH => "ends with"
  | .IS_IN => "is in"
  | .IS_NOT_IN => "is not in"

/-- Members of the `Comparator` enum in Python declaration order
(the iteration order of `for c in Comparator`). -/
def comparatorList : List Comparator :=
  [.EQUALS, .NOT_EQUALS, .GREATER_THAN, .GREATER_THAN_OR_EQUAL,
   .LESS_THAN, .LESS_THAN_OR_EQUAL, .IS_TRUE, .IS_FALSE,
   .IS_BLANK, .IS_NOT_BLANK, .CONTAINS, .STARTS_WITH, .ENDS_WITH,
   .IS_IN, .IS_NOT_IN]

/-- Embeds the `PegaFunction` enum of `models.py`. -/
inductive PegaFunction
  | EQUALS_IGNORE_CASE
  | NOT_EQUALS_IGNORE_CASE
  | CONTAINS
  | STARTS_WITH
  | ENDS_WITH
  | GREATER_THAN
  | GREATER_THAN_OR_EQUAL
  | LESS_THAN
  | LESS_THAN_OR_EQUAL
  | TRIM
  | IS_TRUE
  | IS_FALSE
  | IS_BLANK
  | IS_NOT_BLANK
  | CALL_WHEN
  | IS_IN_PAGE_LIST
deriving DecidableEq, Repr

/-- The `.value` string of each `PegaFunction` member. -/
def PegaFunction.value : PegaFunction → String
  | .EQUALS_IGNORE_CASE => "@equalsIgnoreCase"
  | .NOT_EQUALS_IGNORE_CASE => "@notEqualsIgnoreCase"
  | .CONTAINS => "@contains"
  | .STARTS_WITH => "@startsWith"
  | .ENDS_WITH => "@endsWith"
  | .GREATER_THAN => "@greaterThan"
  | .GREATER_THAN_OR_EQUAL => "@greaterThanOrEqual"
  | .LESS_THAN => "@lessThan"
  | .LESS_THAN_OR_EQUAL => "@lessThanOrEqual"
  | .TRIM => "@trim"
  | .IS_TRUE => "@isTrue"
  | .IS_FALSE => "@isFalse"
  | .IS_BLANK => "@isBlank"
  | .IS_NOT_BLANK => "@isNotBlank"
  | .CALL_WHEN => "@Utilities.callWhen"
  | .IS_IN_PAGE_LIST => "@IsInPageListWhen"

/-- Embeds the `LogicalOperator` enum of `models.py`. -/
inductive LogicalOperator
  | AND
  | OR
deriving DecidableEq, Repr

/-- Embeds the `ConditionType` enum of `models.py`. -/
inductive ConditionType
  | PROPERTY_COMPARISON
  | RULE_REFERENCE
  | FUNCTION_CALL
deriving DecidableEq, Repr

/-- Embeds the `Condition` pydantic model of `models.py` (field defaults
match the Python `Field(default=...)` declarations). -/
structure Condition where
  condition_type : ConditionType := .PROPERTY_COMPARISON
  property_reference : Option String := none
  comparator : Option Comparator := none
  pega_function : Option PegaFunction := none
  compare_value : Option String := none
  apply_trim : Bool := true
  compare_value_is_property : Bool := false
  referenced_rule : Option String := none
  rule_evaluates_to : Bool := true
deriving DecidableEq, Repr

/-- Embeds the `ConditionGroup` pydantic model of `models.py`. -/
structure ConditionGroup where
  conditions : List Condition
  operator : LogicalOperator := .AND
deriving DecidableEq, Repr

/-- Embeds the `WhenRule` pydantic model of `models.py`. -/
structure WhenRule where
  rule_name : String
  applies_to : String
  description : String
  condition_groups : List ConditionGroup
  group_operator : LogicalOperator := .AND
  campaign_id : Option String := none
deriving DecidableEq, Repr

/-- Python `x or ""` on an `Optional[str]` (both `None` and `""` give `""`). -/
def pyOrEmpty (o : Option String) : String := o.getD ""

/-- Python truthiness of an `Optional[str]`: `None` and `""` are falsy. -/
def pyTruthyOpt (o : Option String) : Bool := !(o.getD "").isEmpty

/-- Python f-string rendering of an `Optional[str]`: `None` prints "None". -/
def pyStr (o : Option String) : String :=
  match o with
  | none => "None"
  | some s => s

/-- Python `val.startswith('"')`: the first character is a double quote
(modelled on the character list so that it evaluates by `rfl`/`decide`). -/
def pyStartsWithQuote (s : String) : Bool :=
  match s.toList with
  | [] => false
  | c :: _ => c = '"'

/-- Python `s.replace('.', '').replace('-', '')`: drop every '.' and '-'. -/
def stripDotsDashes (s : String) : String :=
  String.mk (s.toList.filter (fun c => c ≠ '.' ∧ c ≠ '-'))

/-- Python `s.isdigit()` for ASCII strings: non-empty and all characters
are decimal digits. -/
def pyIsdigit (s : String) : Bool :=
  !s.isEmpty && s.toList.all Char.isDigit

/-- The numeric-literal heuristic `val.replace('.', '').replace('-', '').isdigit()`
shared by the three quoting sites in `models.py`. -/
def isNumericLike (s : String) : Bool :=
  pyIsdigit (stripDotsDashes s)

/-- The inline `"&&" if op == LogicalOperator.AND else "||"` expression of
`models.py`. -/
def opSymbol : LogicalOperator → String
  | .AND => "&&"
  | .OR => "||"

/-- The comparator tuple `(IS_TRUE, IS_FALSE, IS_BLANK, IS_NOT_BLANK)`
used in `_condition_to_expr`. -/
def unaryComparators : List Comparator :=
  [.IS_TRUE, .IS_FALSE, .IS_BLANK, .IS_NOT_BLANK]

/-- The comparator tuple `(GREATER_THAN, LESS_THAN, GREATER_THAN_OR_EQUAL,
LESS_THAN_OR_EQUAL)` used for the `is_numeric` test. -/
def numericComparators : List Comparator :=
  [.GREATER_THAN, .LESS_THAN, .GREATER_THAN_OR_EQUAL, .LESS_THAN_OR_EQUAL]

/-- The function tuple `(GREATER_THAN, LESS_THAN, GREATER_THAN_OR_EQUAL,
LESS_THAN_OR_EQUAL)` used in `_build_function_expr`. -/
def numericPegaFunctions : List PegaFunction :=
  [.GREATER_THAN, .LESS_THAN, .GREATER_THAN_OR_EQUAL, .LESS_THAN_OR_EQUAL]

/-- The function tuple `(IS_TRUE, IS_FALSE, IS_BLANK, IS_NOT_BLANK)` used for
the unary-function test. -/
def unaryPegaFunctions : List PegaFunction :=
  [.IS_TRUE, .IS_FALSE, .IS_BLANK, .IS_NOT_BLANK]

/-- The `func_map` dictionary of `_build_function_expr_from_comparator`
(`dict.get` returns `None` for the unmapped `IS_IN`/`IS_NOT_IN`). -/
def func_map : Comparator → Option PegaFunction
  | .EQUALS => some .EQUALS_IGNORE_CASE
  | .NOT_EQUALS => some .NOT_EQUALS_IGNORE_CASE
  | .GREATER_THAN => some .GREATER_THAN
  | .GREATER_THAN_OR_EQUAL => some .GREATER_THAN_OR_EQUAL
  | .LESS_THAN => some .LESS_THAN
  | .LESS_THAN_OR_EQUAL => some .LESS_THAN_OR_EQUAL
  | .CONTAINS => some .CONTAINS
  | .STARTS_WITH => some .STARTS_WITH
  | .ENDS_WITH => some .ENDS_WITH
  | .IS_TRUE => some .IS_TRUE
  | .IS_FALSE => some .IS_FALSE
  | .IS_BLANK => some .IS_BLANK
  | .IS_NOT_BLANK => some .IS_NOT_BLANK
  | .IS_IN => none
  | .IS_NOT_IN => none

/-- Embeds `WhenRule._build_function_expr` (only ever called with
`pega_function` set; the `none` branch is unreachable from the callers). -/
def build_function_expr (cond : Condition) : String :=
  match cond.pega_function with
  | none => ""
  | some func =>
    let prop0 := pyOrEmpty cond.property_reference
    let prop :=
      if cond.apply_trim = true ∧ func ∉ numericPegaFunctions then
        "@trim(" ++ prop0 ++ ")"
      else prop0
    if func ∈ unaryPegaFunctions then
      func.value ++ "(" ++ prop ++ ")"
    else
      let val0 := pyOrEmpty cond.compare_value
      let val :=
        if cond.compare_value_is_property = false ∧ pyStartsWithQuote val0 = false ∧
            isNumericLike val0 = false then
          "\"" ++ val0 ++ "\""
        else val0
      func.value ++ "(" ++ prop ++ ", " ++ val ++ ")"

/-- Embeds `WhenRule._build_function_expr_from_comparator`. -/
def build_function_expr_from_comparator (cond : Condition) : String :=
  let prop0 := pyOrEmpty cond.property_reference
  let val0 := pyOrEmpty cond.compare_value
  let funcOpt : Option PegaFunction :=
    match cond.comparator with
    | none => none
    | some c => func_map c
  match funcOpt with
  | none => "(" ++ prop0 ++ " == " ++ val0 ++ ")"
  | some func =>
    let is_numeric : Bool :=
      match cond.comparator with
      | none => false
      | some c => decide (c ∈ numericComparators)
    let prop :=
      if cond.apply_trim = true ∧ is_numeric = false then
        "@trim(" ++ prop0 ++ ")"
      else prop0
    if func ∈ unaryPegaFunctions then
      func.value ++ "(" ++ prop ++ ")"
    else
      let val :=
        if is_numeric = false ∧ pyStartsWithQuote val0 = false ∧
            isNumericLike val0 = false then
          "\"" ++ val0 ++ "\""
        else val0
      func.value ++ "(" ++ prop ++ ", " ++ val ++ ")"

/-- Embeds `WhenRule._condition_to_expr`. -/
def condition_to_expr (cond : Condition) (use_pega_functions : Bool) : String :=
  if cond.condition_type = .RULE_REFERENCE ∧ pyTruthyOpt cond.referenced_rule then
    let evalStr := if cond.rule_evaluates_to then "true" else "false"
    "\x7bRule " ++ pyStr cond.referenced_rule ++ " evaluates to " ++ evalStr ++ "\x7d"
  else
    let prop := pyOrEmpty cond.property_reference
    if use_pega_functions = true ∧ cond.pega_function.isSome then
      build_function_expr cond
    else if use_pega_functions then
      build_function_expr_from_comparator cond
    else
      match cond.comparator with
      | some comp =>
        let compStr := comp.value
        if comp ∈ unaryComparators then
          prop ++ " " ++ compStr
        else
          let val :=
            match cond.compare_value with
            | none => "None"
            | some v =>
              if cond.compare_value_is_property = false then
                if pyStartsWithQuote v = false ∧ isNumericLike v = false then
                  "\"" ++ v ++ "\""
                else v
              else v
          prop ++ " " ++ compStr ++ " " ++ val
      | none => prop

/-- The per-group body of the loop in `WhenRule.to_expression`: render each
condition, then join with the group operator, parenthesizing only when the
group has other than exactly one condition. -/
def group_to_expr (use_pega_functions : Bool) (group : ConditionGroup) : String :=
  let conditions_str := group.conditions.map (condition_to_expr · use_pega_functions)
  let group_op := opSymbol group.operator
  match conditions_str with
  | [single] => single
  | l => "(" ++ String.intercalate (" " ++ group_op ++ " ") l ++ ")"

/-- Embeds `WhenRule.to_expression`. -/
def to_expression (r : WhenRule) (use_pega_functions : Bool) : String :=
  let group_expressions := r.condition_groups.map (group_to_expr use_pega_functions)
  let op_symbol := opSymbol r.group_operator
  match group_expressions with
  | [single] => single
  | l => String.intercalate (" " ++ op_symbol ++ " ") l

/-- The per-condition XML block emitted by `WhenRule.to_pega_xml`. -/
def xml_condition_block (cond : Condition) : String :=
  if cond.condition_type = .RULE_REFERENCE then
    "    <ruleReference>\n      <ruleName>" ++ pyStr cond.referenced_rule ++
      "</ruleName>\n      <evaluatesTo>" ++
      (if cond.rule_evaluates_to then "true" else "false") ++
      "</evaluatesTo>\n    </ruleReference>"
  else
    "    <condition>\n      <propertyRef>" ++ pyOrEmpty cond.property_reference ++
      "</propertyRef>\n      <comparator>" ++
      (match cond.comparator with
       | some c => c.value
       | none => "") ++
      "</comparator>\n      <compareValue>" ++ pyOrEmpty cond.compare_value ++
      "</compareValue>\n      <compareValueIsProperty>" ++
      (if cond.compare_value_is_property then "true" else "false") ++
      "</compareValueIsProperty>\n    </condition>"

/-- The `conditions_xml` list built by the nested loop of `to_pega_xml`:
condition blocks with an `<operator>` marker between consecutive conditions
of a group and a `<groupOperator>` marker between consecutive groups. -/
def conditions_xml (r : WhenRule) : List String :=
  List.intercalate
    ["    <groupOperator>" ++ opSymbol r.group_operator ++ "</groupOperator>"]
    (r.condition_groups.map (fun g =>
      List.intersperse
        ("    <operator>" ++ opSymbol g.operator ++ "</operator>")
        (g.conditions.map xml_condition_block)))

/-- Embeds `WhenRule.to_pega_xml`. -/
def to_pega_xml (r : WhenRule) : String :=
  "<?xml version=\"1.0\" encoding=\"UTF-8\"?>\n" ++
  "<pega:WhenRule xmlns:pega=\"http://www.pega.com/rules\">\n" ++
  "  <ruleName>" ++ r.rule_name ++ "</ruleName>\n" ++
  "  <appliesTo>" ++ r.applies_to ++ "</appliesTo>\n" ++
  "  <description>" ++ r.description ++ "</description>\n" ++
  "  <campaignId>" ++ pyOrEmpty r.campaign_id ++ "</campaignId>\n" ++
  "  <conditions>\n" ++
  String.intercalate "\n" (conditions_xml r) ++
  "\n  </conditions>\n</pega:WhenRule>"

/-- Python values as they appear in `json.loads` output and in the
dictionaries returned by the tool layer. -/
inductive PyVal
  | str (s : String)
  | bool (b : Bool)
  | int (n : Int)
  | nullv
  | list (xs : List PyVal)
  | dict (kvs : List (String × PyVal))

/-- A Python `Optional[str]` as a `PyVal` (`None` becomes JSON/dict null). -/
def optStrToPy (o : Option String) : PyVal :=
  match o with
  | none => .nullv
  | some s => .str s

/-- First-match association-list lookup, the behavior of `dict[key]` /
`dict.get(key)` on the (duplicate-free) dictionaries modelled here. -/
def assocLookup : List (String × PyVal) → String → Option PyVal
  | [], _ => none
  | (k, v) :: rest, key => if k = key then some v else assocLookup rest key

/-- Lookup of a key in a `PyVal` that is expected to be a dict (used only to
state theorems about emitted payloads). -/
def lookupKey (v : PyVal) (key : String) : Option PyVal :=
  match v with
  | .dict kvs => assocLookup kvs key
  | _ => none

/-- The record emitted by `WhenRule.to_dict` for one condition of group
`group` (the `pyLogicalOperator` comes from the enclosing group's operator). -/
def condition_to_record (group : ConditionGroup) (cond : Condition) : PyVal :=
  if cond.condition_type = .RULE_REFERENCE then
    .dict [("pyConditionType", .str "rule"),
           ("pyRuleName", optStrToPy cond.referenced_rule),
           ("pyEvaluatesTo", .bool cond.rule_evaluates_to),
           ("pyLogicalOperator", .str (opSymbol group.operator))]
  else
    .dict [("pyConditionType", .str "property"),
           ("pyPropertyRef", .str (pyOrEmpty cond.property_reference)),
           ("pyComparator",
            .str (match cond.comparator with
                  | some c => c.value
                  | none => "")),
           ("pyCompareValue", .str (pyOrEmpty cond.compare_value)),
           ("pyCompareValueIsProperty", .bool cond.compare_value_is_property),
           ("pyLogicalOperator", .str (opSymbol group.operator))]

/-- Embeds `WhenRule.to_dict`. -/
def to_dict (r : WhenRule) : PyVal :=
  let conditions_list :=
    (r.condition_groups.map (fun g => g.conditions.map (condition_to_record g))).flatten
  .dict [("pxObjClass", .str "Rule-Obj-When"),
         ("pyClassName", .str r.applies_to),
         ("pyRuleName", .str r.rule_name),
         ("pyDescription", .str r.description),
         ("pyCampaignId", optStrToPy r.campaign_id),
         ("pyConditions", .list conditions_list)]

/-- Uncaught Python exceptions relevant to `create_when_rule`:
`AttributeError` (a non-dict has no `.get`), `TypeError` (iterating or
testing containment on a non-container), and pydantic `ValidationError`. -/
inductive PyExc
  | attributeError
  | typeError
  | validationError
deriving DecidableEq, Repr

/-- Python `x.get(key, default)`: only dicts have `.get`; anything else
raises `AttributeError`. -/
def pyGet (v : PyVal) (key : String) (dflt : PyVal) : Except PyExc PyVal :=
  match v with
  | .dict kvs => .ok ((assocLookup kvs key).getD dflt)
  | _ => .error .attributeError

/-- Python iteration `for x in v`: lists yield elements, strings yield
one-character strings, dicts yield their keys; other values raise
`TypeError`. -/
def pyIter (v : PyVal) : Except PyExc (List PyVal) :=
  match v with
  | .list xs => .ok xs
  | .str s => .ok (s.toList.map (fun c => .str (String.mk [c])))
  | .dict kvs => .ok (kvs.map (fun kv => .str kv.1))
  | _ => .error .typeError

/-- Python `v == s` for a string literal `s` (equality across types is
`False`, never an error). -/
def pyEqStrLit (v : PyVal) (s : String) : Bool :=
  match v with
  | .str t => t == s
  | _ => false

/-- Python `s in v` for a string `s`: key test on dicts, membership on lists,
substring test on strings; other values raise `TypeError`. -/
def pyContains (v : PyVal) (s : String) : Except PyExc Bool :=
  match v with
  | .dict kvs => .ok (kvs.any (fun kv => kv.1 == s))
  | .list xs => .ok (xs.any (fun x => pyEqStrLit x s))
  | .str t => .ok ((t.splitOn s).length > 1)
  | _ => .error .typeError

/-- pydantic validation of an `Optional[str]` field value (lax mode coerces
neither ints nor bools to `str`; those raise `ValidationError`). -/
def pyToOptStr (v : PyVal) : Except PyExc (Option String) :=
  match v with
  | .str s => .ok (some s)
  | .nullv => .ok none
  | _ => .error .validationError

/-- pydantic validation of a `bool` field value (lax mode accepts `bool`,
the ints 0/1 and a fixed set of strings; everything else raises
`ValidationError`; the inputs in this development are always `bool`). -/
def pyToBool (v : PyVal) : Except PyExc Bool :=
  match v with
  | .bool b => .ok b
  | .int 0 => .ok false
  | .int 1 => .ok true
  | _ => .error .validationError

/-- The comparator-matching loop of `create_when_rule`: the first enum member
whose `.value` equals the given text, else the `EQUALS` default. -/
def parse_comparator (comp_str : String) : Comparator :=
  match comparatorList.find? (fun c => c.value == comp_str) with
  | some c => c
  | none => .EQUALS

/-- Builds one `Condition` from one entry of a group's `conditions` list,
embedding the per-condition body of the loop in `create_when_rule`. -/
def build_condition (cond : PyVal) : Except PyExc Condition := do
  let hasRule ← pyContains cond "rule"
  if hasRule then do
    let rr ← pyGet cond "rule" .nullv
    let rrs ← pyToOptStr rr
    let ev ← pyGet cond "evaluates_to" (.bool true)
    let evb ← pyToBool ev
    pure { condition_type := .RULE_REFERENCE,
           referenced_rule := rrs,
           rule_evaluates_to := evb }
  else do
    let compV ← pyGet cond "comparator" (.str "is equal to")
    let comparator : Comparator :=
      match compV with
      | .str s => parse_comparator s
      | _ => .EQUALS
    let apply_trim_default : Bool := decide (comparator ∉ numericComparators)
    let propV ← pyGet cond "property" (.str "")
    let props ← pyToOptStr propV
    let valV ← pyGet cond "value" .nullv
    let vals ← pyToOptStr valV
    let atV ← pyGet cond "apply_trim" (.bool apply_trim_default)
    let atb ← pyToBool atV
    let ipV ← pyGet cond "is_property" (.bool false)
    let ipb ← pyToBool ipV
    pure { condition_type := .PROPERTY_COMPARISON,
           property_reference := props,
           comparator := some comparator,
           compare_value := vals,
           apply_trim := atb,
           compare_value_is_property := ipb }

/-- Builds one `ConditionGroup` from one entry of the `groups` list,
embedding the per-group body of the loop in `create_when_rule`. -/
def build_group (group_data : PyVal) : Except PyExc ConditionGroup := do
  let condsV ← pyGet group_data "conditions" (.list [])
  let condEntries ← pyIter condsV
  let conditions ← condEntries.mapM build_condition
  let opV ← pyGet group_data "operator" (.str "AND")
  let operator := if pyEqStrLit opV "AND" then LogicalOperator.AND else .OR
  pure { conditions := conditions, operator := operator }

/-- The `groups` loop of `create_when_rule`. -/
def build_condition_groups (conditions_data : PyVal) : Except PyExc (List ConditionGroup) := do
  let groupsV ← pyGet conditions_data "groups" (.list [])
  let groupEntries ← pyIter groupsV
  groupEntries.mapM build_group

/-- Embeds `create_when_rule` from `agent.py`.  The `conditions_json`
argument is the outcome of `json.loads` on the JSON text (`Except.error e`
for a `json.JSONDecodeError` with message `e`); a `.error` result models an
exception escaping the function, a `.ok` result is the returned dict. -/
def create_when_rule (rule_name applies_to description : String)
    (conditions_json : Except String PyVal) (campaign_id : Option String) :
    Except PyExc PyVal :=
  match conditions_json with
  | .error e => .ok (.dict [("error", .str ("Invalid JSON in conditions: " ++ e))])
  | .ok conditions_data => do
    let condition_groups ← build_condition_groups conditions_data
    let gv ← pyGet conditions_data "group_operator" (.str "AND")
    let group_operator := if pyEqStrLit gv "AND" then LogicalOperator.AND else .OR
    let when_rule : WhenRule :=
      { rule_name := rule_name,
        applies_to := applies_to,
        description := description,
        condition_groups := condition_groups,
        group_operator := group_operator,
        campaign_id := campaign_id }
    pure (.dict
      [("status", .str "success"),
       ("rule_name", .str when_rule.rule_name),
       ("applies_to", .str when_rule.applies_to),
       ("campaign_id", optStrToPy when_rule.campaign_id),
       ("expression", .str (to_expression when_rule true)),
       ("expression_simple", .str (to_expression when_rule false)),
       ("xml", .str (to_pega_xml when_rule)),
       ("api_payload", to_dict when_rule)])

/-! Concrete values used to instantiate the theorems below. -/

/-- A boolean property check on `X` (no trim, so its rendering is short). -/
def condX : Condition :=
  { property_reference := some "X", comparator := some Comparator.IS_TRUE,
    apply_trim := false }

/-- A boolean property check on `Y`. -/
def condY : Condition :=
  { property_reference := some "Y", comparator := some Comparator.IS_TRUE,
    apply_trim := false }

/-- A rule with two condition groups of one condition each. -/
def ruleTwoGroups : WhenRule :=
  { rule_name := "r", applies_to := "a", description := "d",
    condition_groups :=
      [{ conditions := [condX], operator := .AND },
       { conditions := [condY], operator := .AND }],
    group_operator := .AND }

/-- A magnitude comparison against the non-numeric literal "abc". -/
def condMagnitudeNonNumeric : Condition :=
  { property_reference := some "P", comparator := some Comparator.GREATER_THAN,
    compare_value := some "abc" }

/-- An equality comparison whose compare value is flagged as a property
reference, rendered through the comparator-mapping path. -/
def condPropertyValue : Condition :=
  { property_reference := some "P", comparator := some Comparator.EQUALS,
    compare_value := some "OTHER_PROP", compare_value_is_property := true }

/-- The same condition with the Pega function given explicitly, so that it
renders through `_build_function_expr` instead. -/
def condPropertyValueExplicitFunc : Condition :=
  { property_reference := some "P", comparator := some Comparator.EQUALS,
    pega_function := some PegaFunction.EQUALS_IGNORE_CASE,
    compare_value := some "OTHER_PROP", compare_value_is_property := true }

/-! Theorems settling the claims. -/

/-- C1 (counterexample): `create_when_rule` on syntactically valid JSON of
the wrong structure — here a `groups` entry that is the integer 42 rather
than a map — raises an uncaught `AttributeError` (the integer has no `.get`)
instead of returning a structured error result. -/
theorem C1_counterexample :
    create_when_rule "R" "A" "D" (.ok (.dict [("groups", .list [.int 42])])) none =
      .error .attributeError := rfl

/-- C1 (amended): for conditions input that is syntactically invalid JSON
(`json.loads` fails), `create_when_rule` returns a structured error
dictionary carrying a diagnostic message and lets no exception propagate. -/
theorem C1_invalid_json_returns_error_dict (n a d e : String) (cid : Option String) :
    create_when_rule n a d (.error e) cid =
      .ok (.dict [("error", .str ("Invalid JSON in conditions: " ++ e))]) := rfl

/-- C2 (counterexample): for a rule with two condition groups, the top-level
join of the group tokens is NOT wrapped in a parenthesis pair, contrary to
the claim that the in-group parenthesization rule also applies at the top
level. -/
theorem C2_counterexample :
    to_expression ruleTwoGroups true = "@isTrue(X) && @isTrue(Y)" ∧
    to_expression ruleTwoGroups true ≠ "(@isTrue(X) && @isTrue(Y))" := by
  exact ⟨rfl, by decide⟩

/-- C2 (amended): with two or more groups, `to_expression` joins the group
tokens with the rule-level operator symbol and adds no parentheses around
the join. -/
theorem C2_top_level_join (r : WhenRule) (b : Bool)
    (h : 2 ≤ r.condition_groups.length) :
    to_expression r b =
      String.intercalate (" " ++ opSymbol r.group_operator ++ " ")
        (r.condition_groups.map (group_to_expr b)) := by
  rcases hg : r.condition_groups with _ | ⟨g1, rest1⟩
  · rw [hg] at h; simp at h
  · rcases rest1 with _ | ⟨g2, rest2⟩
    · rw [hg] at h; simp at h
    · simp only [to_expression, hg, List.map_cons]

/-- C2 (witness): the amended top-level join theorem applied to the concrete
two-group rule. -/
theorem C2_witness :
    to_expression ruleTwoGroups true = "@isTrue(X) && @isTrue(Y)" := by
  have h := C2_top_level_join ruleTwoGroups true (by decide)
  rw [h]; rfl

/-- C5 (code bug): a compare value flagged as a property reference is
nevertheless wrapped in double quotes by the comparator-mapping function
path, while the explicit-function path honors the flag and passes the value
through unquoted. -/
theorem C5_flag_ignored_in_comparator_path :
    condition_to_expr condPropertyValue true =
      "@equalsIgnoreCase(@trim(P), \"OTHER_PROP\")" ∧
    condition_to_expr condPropertyValueExplicitFunc true =
      "@equalsIgnoreCase(@trim(P), OTHER_PROP)" := by
  exact ⟨rfl, rfl⟩

/-- C9: a property comparison whose comparator is `IS_IN` or `IS_NOT_IN`
(and no explicit Pega function) renders in the function dialect as the raw
fallback `(<property> == <value>)`, with the value passed through unquoted. -/
theorem C9_is_in_fallback (c : Condition)
    (hc : c.comparator = some Comparator.IS_IN ∨ c.comparator = some Comparator.IS_NOT_IN)
    (hf : c.pega_function = none)
    (ht : c.condition_type = .PROPERTY_COMPARISON) :
    condition_to_expr c true =
      "(" ++ pyOrEmpty c.property_reference ++ " == " ++ pyOrEmpty c.compare_value ++ ")" := by
  unfold condition_to_expr
  rw [if_neg (by simp [ht])]
  rw [if_neg (by simp [hf])]
  rw [if_pos rfl]
  unfold build_function_expr_from_comparator
  rcases hc with h | h <;> rw [h] <;> rfl

/-- C9 (witness): the fallback theorem applied to a concrete `IS_IN`
condition. -/
theorem C9_witness :
    condition_to_expr
      { property_reference := some "P", comparator := some Comparator.IS_IN,
        compare_value := some "A,B" } true = "(P == A,B)" := by
  have h := C9_is_in_fallback
    { property_reference := some "P", comparator := some Comparator.IS_IN,
      compare_value := some "A,B" } (Or.inl rfl) rfl rfl
  exact h.trans (by decide)

/-- C10: a condition group with zero conditions renders as the literal token
"()": both as a group token and as the whole expression of a one-empty-group
rule, in both dialects. -/
theorem C10_empty_group_renders_unit_parens :
    (∀ (b : Bool) (op : LogicalOperator),
      group_to_expr b { conditions := [], operator := op } = "()") ∧
    (∀ (n a d : String) (cid : Option String) (gop op : LogicalOperator) (b : Bool),
      to_expression
        { rule_name := n, applies_to := a, description := d,
          condition_groups := [{ conditions := [], operator := op }],
          group_operator := gop, campaign_id := cid } b = "()") := by
  constructor
  · intro b op; rfl
  · intro n a d cid gop op b; rfl

/-- C3 (counterexample): in the function dialect, a magnitude comparison
leaves a non-numeric compare value unquoted ("abc" fails the digit-stripping
test yet is rendered bare), so the quoting rule is not an exact
characterization across all renderings. -/
theorem C3_counterexample :
    condition_to_expr condMagnitudeNonNumeric true = "@greaterThan(P, abc)" ∧
    isNumericLike "abc" = false ∧
    pyStartsWithQuote "abc" = false ∧
    condition_to_expr condMagnitudeNonNumeric true ≠ "@greaterThan(P, \"abc\")" := by
  refine ⟨rfl, rfl, rfl, by decide⟩

/-- C3 (amended): for every property comparison in the comparator-driven
paths (any comparator, both dialects, with a compare value present), the
rendered output is characterized exactly.  Quoting applies the
digit-stripping test (wrap in double quotes unless the value already starts
with a double quote or the stripped remainder is all digits), except that
the function dialect passes the value through unquoted for the four numeric
magnitude comparators and for the unmapped `IS_IN`/`IS_NOT_IN` fallback,
and consults the property-reference flag only in the simple dialect (the
comparator-mapping function path ignores it, see C5).  The value "1-2"
passes the digit test. -/
theorem C3_value_quoting (c : Condition) (comp : Comparator) (v : String)
    (htype : c.condition_type = ConditionType.PROPERTY_COMPARISON)
    (hfn : c.pega_function = none)
    (hcomp : c.comparator = some comp)
    (hval : c.compare_value = some v) :
    (condition_to_expr c true =
      match func_map comp with
      | none =>
        "(" ++ pyOrEmpty c.property_reference ++ " == " ++ v ++ ")"
      | some f =>
        let prop :=
          if c.apply_trim = true ∧ decide (comp ∈ numericComparators) = false then
            "@trim(" ++ pyOrEmpty c.property_reference ++ ")"
          else pyOrEmpty c.property_reference
        if f ∈ unaryPegaFunctions then
          f.value ++ "(" ++ prop ++ ")"
        else if comp ∈ numericComparators then
          f.value ++ "(" ++ prop ++ ", " ++ v ++ ")"
        else
          f.value ++ "(" ++ prop ++ ", " ++
            (if pyStartsWithQuote v = false ∧ isNumericLike v = false then
               "\"" ++ v ++ "\""
             else v) ++ ")") ∧
    (condition_to_expr c false =
      if comp ∈ unaryComparators then
        pyOrEmpty c.property_reference ++ " " ++ comp.value
      else
        pyOrEmpty c.property_reference ++ " " ++ comp.value ++ " " ++
          (if c.compare_value_is_property = false then
             (if pyStartsWithQuote v = false ∧ isNumericLike v = false then
                "\"" ++ v ++ "\""
              else v)
           else v)) ∧
    isNumericLike "1-2" = true := by
  refine ⟨?_, ?_, rfl⟩
  · cases comp <;>
      simp [condition_to_expr, build_function_expr_from_comparator, func_map,
            hcomp, hval, htype, hfn, numericComparators, unaryComparators,
            unaryPegaFunctions, Comparator.value, PegaFunction.value,
            pyOrEmpty, pyTruthyOpt]
  · cases comp <;>
      simp [condition_to_expr, hcomp, hval, htype, hfn, unaryComparators,
            Comparator.value, pyOrEmpty, pyTruthyOpt]

/-- C3 (witness): the quoting theorem applied to the concrete non-numeric
value "abc" under a mapped binary comparator (quoted) and under the
unmapped `IS_IN` fallback (passed through unquoted). -/
theorem C3_witness :
    condition_to_expr
      { property_reference := some "P", comparator := some Comparator.EQUALS,
        compare_value := some "abc", apply_trim := false } true =
      "@equalsIgnoreCase(P, \"abc\")" ∧
    condition_to_expr
      { property_reference := some "P", comparator := some Comparator.IS_IN,
        compare_value := some "abc" } true = "(P == abc)" := by
  constructor
  · have h := (C3_value_quoting
      { property_reference := some "P", comparator := some Comparator.EQUALS,
        compare_value := some "abc", apply_trim := false }
      Comparator.EQUALS "abc" rfl rfl rfl rfl).1
    exact h.trans (by decide)
  · have h := (C3_value_quoting
      { property_reference := some "P", comparator := some Comparator.IS_IN,
        compare_value := some "abc" }
      Comparator.IS_IN "abc" rfl rfl rfl rfl).1
    exact h.trans (by decide)

/-- Helper for C4: each emitted condition record carries the enclosing
group's operator symbol in its `pyLogicalOperator` field. -/
theorem lookup_record_logical_operator (g : ConditionGroup) (c : Condition) :
    lookupKey (condition_to_record g c) "pyLogicalOperator" =
      some (.str (opSymbol g.operator)) := by
  by_cases h : c.condition_type = .RULE_REFERENCE
  · simp only [condition_to_record, if_pos h, lookupKey]; rfl
  · simp only [condition_to_record, if_neg h, lookupKey]; rfl

/-- C4: `to_dict` emits exactly one record per condition (the length of
`pyConditions` is the total number of conditions over all groups), and every
record's `pyLogicalOperator` is the operator symbol of the record's own
enclosing group — never the rule-level `group_operator`. -/
theorem C4_to_dict_per_condition_records (r : WhenRule) :
    ∃ L : List PyVal,
      lookupKey (to_dict r) "pyConditions" = some (.list L) ∧
      L.length = (r.condition_groups.map (fun g => g.conditions.length)).sum ∧
      ∀ v ∈ L, ∃ g ∈ r.condition_groups, ∃ c ∈ g.conditions,
        v = condition_to_record g c ∧
        lookupKey v "pyLogicalOperator" = some (.str (opSymbol g.operator)) := by
  refine ⟨_, rfl, ?_, ?_⟩
  · rw [List.length_flatten, List.map_map]
    simp [Function.comp_def, List.length_map]
  · intro v hv
    rw [List.mem_flatten] at hv
    obtain ⟨l, hl, hvl⟩ := hv
    rw [List.mem_map] at hl
    obtain ⟨g, hg, rfl⟩ := hl
    rw [List.mem_map] at hvl
    obtain ⟨c, hc, rfl⟩ := hvl
    exact ⟨g, hg, c, hc, rfl, lookup_record_logical_operator g c⟩

/-- C7: a rule with a single group of at least two conditions joined by AND
renders in the function dialect as the parenthesized "&&"-join of the atomic
renderings of its conditions, and a single group with exactly one condition
renders as that condition's token with no added parentheses. -/
theorem C7_single_group_rendering :
    (∀ (n a d : String) (cid : Option String) (gop : LogicalOperator)
        (g : ConditionGroup),
      g.operator = .AND → 2 ≤ g.conditions.length →
      to_expression
        { rule_name := n, applies_to := a, description := d,
          condition_groups := [g], group_operator := gop, campaign_id := cid } true =
        "(" ++ String.intercalate " && "
          (g.conditions.map (condition_to_expr · true)) ++ ")") ∧
    (∀ (n a d : String) (cid : Option String) (gop : LogicalOperator) (b : Bool)
        (g : ConditionGroup) (c : Condition),
      g.conditions = [c] →
      to_expression
        { rule_name := n, applies_to := a, description := d,
          condition_groups := [g], group_operator := gop, campaign_id := cid } b =
        condition_to_expr c b) := by
  constructor
  · intro n a d cid gop g hop hlen
    show group_to_expr true g = _
    rcases hc : g.conditions with _ | ⟨c1, _ | ⟨c2, rest⟩⟩
    · rw [hc] at hlen; simp at hlen
    · rw [hc] at hlen; simp at hlen
    · simp only [group_to_expr, hc, List.map_cons, hop, opSymbol]
      rfl
  · intro n a d cid gop b g c hc
    show group_to_expr b g = _
    simp only [group_to_expr, hc, List.map_cons, List.map_nil]

/-- C7 (witness): the single-group rendering theorem applied to concrete
one- and two-condition groups. -/
theorem C7_witness :
    to_expression
      { rule_name := "r", applies_to := "a", description := "d",
        condition_groups := [{ conditions := [condX, condY], operator := .AND }],
        group_operator := .AND, campaign_id := none } true =
      "(@isTrue(X) && @isTrue(Y))" ∧
    to_expression
      { rule_name := "r", applies_to := "a", description := "d",
        condition_groups := [{ conditions := [condX], operator := .AND }],
        group_operator := .AND, campaign_id := none } true =
      "@isTrue(X)" := by
  constructor
  · have h := C7_single_group_rendering.1 "r" "a" "d" none .AND
      { conditions := [condX, condY], operator := .AND } rfl (by decide)
    exact h.trans (by decide)
  · have h := C7_single_group_rendering.2 "r" "a" "d" none .AND true
      { conditions := [condX], operator := .AND } condX rfl
    exact h.trans (by decide)

/-- C6: in the function dialect with `apply_trim` set, the property argument
is wrapped in `@trim(...)` before being passed to the comparison function
whenever the selected comparator/function is not one of the four numeric
magnitude ones; for those four the property is never trim-wrapped.  Stated
for both function-dialect paths: the comparator-mapping path (for
comparators that have a function mapping) and the explicit-function path. -/
theorem C6_trim_wrapping :
    (∀ (c : Condition) (comp : Comparator) (f : PegaFunction),
      c.comparator = some comp → func_map comp = some f → c.apply_trim = true →
      build_function_expr_from_comparator c =
        if comp ∈ numericComparators then
          f.value ++ "(" ++ pyOrEmpty c.property_reference ++ ", " ++
            pyOrEmpty c.compare_value ++ ")"
        else if f ∈ unaryPegaFunctions then
          f.value ++ "(" ++ ("@trim(" ++ pyOrEmpty c.property_reference ++ ")") ++ ")"
        else
          f.value ++ "(" ++ ("@trim(" ++ pyOrEmpty c.property_reference ++ ")") ++ ", " ++
            (if pyStartsWithQuote (pyOrEmpty c.compare_value) = false ∧
                isNumericLike (pyOrEmpty c.compare_value) = false then
               "\"" ++ pyOrEmpty c.compare_value ++ "\""
             else pyOrEmpty c.compare_value) ++ ")") ∧
    (∀ (c : Condition) (f : PegaFunction),
      c.pega_function = some f → c.apply_trim = true →
      build_function_expr c =
        if f ∈ unaryPegaFunctions then
          f.value ++ "(" ++ ("@trim(" ++ pyOrEmpty c.property_reference ++ ")") ++ ")"
        else if f ∈ numericPegaFunctions then
          f.value ++ "(" ++ pyOrEmpty c.property_reference ++ ", " ++
            (if c.compare_value_is_property = false ∧
                pyStartsWithQuote (pyOrEmpty c.compare_value) = false ∧
                isNumericLike (pyOrEmpty c.compare_value) = false then
               "\"" ++ pyOrEmpty c.compare_value ++ "\""
             else pyOrEmpty c.compare_value) ++ ")"
        else
          f.value ++ "(" ++ ("@trim(" ++ pyOrEmpty c.property_reference ++ ")") ++ ", " ++
            (if c.compare_value_is_property = false ∧
                pyStartsWithQuote (pyOrEmpty c.compare_value) = false ∧
                isNumericLike (pyOrEmpty c.compare_value) = false then
               "\"" ++ pyOrEmpty c.compare_value ++ "\""
             else pyOrEmpty c.compare_value) ++ ")") := by
  constructor
  · intro c comp f hc hm ht
    cases comp <;> simp only [func_map] at hm <;>
      first
        | exact Option.noConfusion hm
        | (injection hm with hm
           subst hm
           simp [build_function_expr_from_comparator, hc, ht, func_map,
                 numericComparators, unaryPegaFunctions, PegaFunction.value])
  · intro c f hf ht
    cases f <;>
      simp [build_function_expr, hf, ht,
            numericPegaFunctions, unaryPegaFunctions, PegaFunction.value]

/-- C6 (witness): the trim-wrapping theorem applied to a concrete `CONTAINS`
comparison (trim applied) and a concrete explicit `@greaterThan` function
(trim suppressed). -/
theorem C6_witness :
    build_function_expr_from_comparator
      { property_reference := some "P", comparator := some Comparator.CONTAINS,
        compare_value := some "x" } = "@contains(@trim(P), \"x\")" ∧
    build_function_expr
      { property_reference := some "P",
        pega_function := some PegaFunction.GREATER_THAN,
        compare_value := some "5" } = "@greaterThan(P, 5)" := by
  constructor
  · have h := C6_trim_wrapping.1
      { property_reference := some "P", comparator := some Comparator.CONTAINS,
        compare_value := some "x" } Comparator.CONTAINS PegaFunction.CONTAINS rfl rfl rfl
    exact h.trans (by decide)
  · have h := C6_trim_wrapping.2
      { property_reference := some "P",
        pega_function := some PegaFunction.GREATER_THAN,
        compare_value := some "5" } PegaFunction.GREATER_THAN rfl rfl
    exact h.trans (by decide)

/-- Helper for C8: text matching no comparator phrase makes the matching
loop fall through to the `EQUALS` default. -/
theorem parse_comparator_default (s : String)
    (h : s ∉ comparatorList.map Comparator.value) :
    parse_comparator s = Comparator.EQUALS := by
  unfold parse_comparator
  have hfind : comparatorList.find? (fun c => c.value == s) = none := by
    rw [List.find?_eq_none]
    intro c hc hcv
    exact h (List.mem_map.mpr ⟨c, hc, by simpa using hcv⟩)
  rw [hfind]

/-- C8: a property-comparison condition entry whose comparator text matches
none of the supported comparator phrases is built with the `EQUALS`
comparator, and the surrounding `create_when_rule` call still returns a
success payload with no error field. -/
theorem C8_unrecognized_comparator_defaults (p s v : String)
    (h : s ∉ comparatorList.map Comparator.value) :
    build_condition
        (.dict [("property", .str p), ("comparator", .str s), ("value", .str v)]) =
      .ok { condition_type := .PROPERTY_COMPARISON,
            property_reference := some p,
            comparator := some Comparator.EQUALS,
            pega_function := none,
            compare_value := some v,
            apply_trim := true,
            compare_value_is_property := false,
            referenced_rule := none,
            rule_evaluates_to := true } ∧
    ∃ res : PyVal,
      create_when_rule "R" "A" "D"
          (.ok (.dict [("groups", .list
              [.dict [("conditions", .list
                  [.dict [("property", .str p), ("comparator", .str s),
                          ("value", .str v)]]),
                ("operator", .str "AND")]]),
            ("group_operator", .str "AND")])) none = .ok res ∧
      lookupKey res "status" = some (.str "success") ∧
      lookupKey res "error" = none := by
  have hp := parse_comparator_default s h
  constructor
  · have h1 : build_condition
        (.dict [("property", .str p), ("comparator", .str s), ("value", .str v)]) =
      .ok { condition_type := .PROPERTY_COMPARISON,
            property_reference := some p,
            comparator := some (parse_comparator s),
            pega_function := none,
            compare_value := some v,
            apply_trim := decide (parse_comparator s ∉ numericComparators),
            compare_value_is_property := false,
            referenced_rule := none,
            rule_evaluates_to := true } := rfl
    rw [h1, hp]
    rfl
  · exact ⟨_, rfl, rfl, rfl⟩

/-- C8 (witness): the defaulting theorem applied to the unrecognized
comparator text "almost equals". -/
theorem C8_witness :
    ("almost equals" ∉ comparatorList.map Comparator.value) ∧
    (build_condition
        (.dict [("property", .str "P"), ("comparator", .str "almost equals"),
                ("value", .str "5")]) =
      .ok { condition_type := .PROPERTY_COMPARISON,
            property_reference := some "P",
            comparator := some Comparator.EQUALS,
            pega_function := none,
            compare_value := some "5",
            apply_trim := true,
            compare_value_is_property := false,
            referenced_rule := none,
            rule_evaluates_to := true } ∧
     ∃ res : PyVal,
       create_when_rule "R" "A" "D"
           (.ok (.dict [("groups", .list
               [.dict [("conditions", .list
                   [.dict [("property", .str "P"), ("comparator", .str "almost equals"),
                           ("value", .str "5")]]),
                 ("operator", .str "AND")]]),
             ("group_operator", .str "AND")])) none = .ok res ∧
       lookupKey res "status" = some (.str "success") ∧
       lookupKey res "error" = none) :=
  ⟨by decide, C8_unrecognized_comparator_defaults "P" "almost equals" "5" (by decide)⟩

end PegaAgent
